import Mathlib

/-!
Verification of the `ai-powered-marketing-brochure` repository.

The development shallowly embeds the four Python source files:

* `website.py` — URL validation (SSRF guard, TLD allowlist), HTTP fetch and
  HTML text extraction (`Website`, plus the unused `Extractor` class);
* `ai_core.py` — conversation history (`HistoryManager`) and the abstract
  agent base (`AICore`) with lazy client construction;
* `extractor_of_relevant_links.py` — the link-relevance classifier agent;
* `ai-brochure-creator.py` — the brochure orchestrator (`BrochureCreator`).

Modelling conventions:

* Python exceptions become `Except PyErr`; `ValueError` and `AttributeError`
  are the constructors of `PyErr`.
* The network is an oracle `String → FetchOutcome`; an HTTP response body is
  represented by its parse tree (`List Html`), abstracting the BeautifulSoup
  parser itself.  Whether any network call happened is recorded in an
  explicit `List Effect` trace, so "rejects before any network I/O" is the
  statement that the trace is empty.
* Python dict messages `{"role": ..., "content": ...}` become `Message`;
  since the code passes a whole response object where a string is annotated,
  `content` is a sum type `Content`.
* The standard-library helpers `urllib.parse.urlparse` (scheme/netloc and
  the `hostname` accessor) and `ipaddress.ip_address` (with the
  `is_loopback`/`is_private`/`is_link_local`/`is_reserved` classifiers of
  CPython's `ipaddress` module) are modelled directly; IPv6 zone ids and
  IPv4-embedded IPv6 forms are outside the model (the parser returns `none`
  for them).
-/

/-- Python errors raised by the modelled code. -/
inductive PyErr where
  | valueError (msg : String)
  | attributeError (attr : String)
deriving DecidableEq

/-- Observable side effects of the pipeline: an HTTP GET of a page, or an
inference round-trip to the model provider. -/
inductive Effect where
  | fetchPage (url : String)
  | askModel (question : String)
deriving DecidableEq

/-- An HTML parse tree: elements with a tag and children, and text nodes
(BeautifulSoup `NavigableString`s). -/
inductive Html where
  | elem (tag : String) (children : List Html)
  | textNode (s : String)

/-- Outcome of `requests.get`: either a transport-level exception
(`RequestException`, carrying `str(e)`) or a response with a status code,
a reason phrase and a parsed body. -/
inductive FetchOutcome where
  | exception (msg : String)
  | response (status : Nat) (reason : String) (soup : List Html)

/-- The state of a `Website` instance from `website.py`: the three private
fields `__website_url`, `__title` and `__text` assigned by the setter and by
`__fetch_website_data`.  No `fetch_failed` field exists anywhere in
`website.py`. -/
structure WebsiteObj where
  website_url : String
  title : String
  text : String
deriving DecidableEq

/-- Result of `urllib.parse.urlparse`, restricted to the two fields the
setter reads directly. -/
structure UrlParts where
  scheme : String
  netloc : String
deriving DecidableEq

/-- A parsed IP address as produced by `ipaddress.ip_address`. -/
inductive IPAddr where
  | v4 (n : Nat)
  | v6 (n : Nat)
deriving DecidableEq

/-- Split a character list at the first occurrence of `:` (used by the
`urlparse` model to isolate a candidate scheme). -/
def splitAtColon : List Char → Option (List Char × List Char)
  | [] => none
  | c :: cs => if c = ':' then some ([], cs) else (splitAtColon cs).map (fun p => (c :: p.1, p.2))

/-- Characters allowed after the first character of a URL scheme. -/
def isSchemeRestChar (c : Char) : Bool := c.isAlphanum || c == '+' || c == '-' || c == '.'

/-- CPython accepts `[A-Za-z][A-Za-z0-9+.-]*` as a scheme before the colon. -/
def validScheme : List Char → Bool
  | [] => false
  | c :: cs => c.isAlpha && cs.all isSchemeRestChar

/-- After the scheme is removed, `urlparse` takes a netloc only when the rest
starts with `//`; the netloc extends to the next `/`, `?` or `#`. -/
def netlocFrom : List Char → String
  | '/' :: '/' :: rest => String.mk (rest.takeWhile (fun c => !(c = '/' || c = '?' || c = '#')))
  | _ => ""

/-- Model of `urllib.parse.urlparse`, returning the lower-cased scheme and
the raw netloc. -/
def urlparse (value : String) : UrlParts :=
  let cs := value.toList
  match splitAtColon cs with
  | some (before, after) =>
    if validScheme before then ⟨String.mk (before.map Char.toLower), netlocFrom after⟩
    else ⟨"", netlocFrom cs⟩
  | none => ⟨"", netlocFrom cs⟩

/-- Model of the `ParseResult.hostname` accessor: strip userinfo up to the
last `@`, take the bracketed part for IPv6 literals or the part before the
port colon otherwise, lower-case it, and return `none` when empty. -/
def hostnameOf (netloc : String) : Option String :=
  let hostinfo := (netloc.toList.reverse.takeWhile (fun c => c ≠ '@')).reverse
  let host := if hostinfo.contains '[' then
      ((hostinfo.dropWhile (fun c => c ≠ '[')).drop 1).takeWhile (fun c => c ≠ ']')
    else hostinfo.takeWhile (fun c => c ≠ ':')
  let lower := host.map Char.toLower
  if lower = [] then none else some (String.mk lower)

/-- Split a character list on a separator character, keeping empty pieces
(like Python `str.split(sep)`). -/
def splitOnCharList (sep : Char) (cs : List Char) : List (List Char) :=
  cs.foldr (fun c acc =>
    match acc with
    | cur :: rest => if c = sep then [] :: cur :: rest else (c :: cur) :: rest
    | [] => [[c]]) [[]]

/-- Decimal value of a digit string (`none` on a non-digit). -/
def decDigitsVal (cs : List Char) : Option Nat :=
  cs.foldl (fun acc c =>
    acc.bind (fun a => if c.isDigit then some (a * 10 + (c.toNat - 48)) else none)) (some 0)

/-- One IPv4 dotted-quad octet: 1–3 decimal digits, no leading zero, ≤ 255
(CPython rejects leading zeros). -/
def parseOctetCs (cs : List Char) : Option Nat :=
  if cs.length = 0 ∨ 3 < cs.length then none
  else if 1 < cs.length ∧ cs.head? = some '0' then none
  else (decDigitsVal cs).bind (fun n => if n ≤ 255 then some n else none)

/-- `IPv4Address` parsing: exactly four valid octets. -/
def parseIPv4 (s : String) : Option Nat :=
  match splitOnCharList '.' s.toList with
  | [a, b, c, d] =>
    (parseOctetCs a).bind fun na =>
    (parseOctetCs b).bind fun nb =>
    (parseOctetCs c).bind fun nc =>
    (parseOctetCs d).bind fun nd =>
    some (((na * 256 + nb) * 256 + nc) * 256 + nd)
  | _ => none

/-- Value of one hexadecimal digit. -/
def hexDigitVal (c : Char) : Option Nat :=
  if c.isDigit then some (c.toNat - 48)
  else if 'a' ≤ c ∧ c ≤ 'f' then some (c.toNat - 87)
  else if 'A' ≤ c ∧ c ≤ 'F' then some (c.toNat - 55)
  else none

/-- One IPv6 hextet: 1–4 hexadecimal digits. -/
def parseHexGroupCs (cs : List Char) : Option Nat :=
  if cs.length = 0 ∨ 4 < cs.length then none
  else cs.foldl (fun acc c => acc.bind fun a => (hexDigitVal c).map fun v => a * 16 + v) (some 0)

/-- Split a character list at the first occurrence of `::`. -/
def splitDoubleColon : List Char → Option (List Char × List Char)
  | [] => none
  | ':' :: ':' :: rest => some ([], rest)
  | c :: rest => (splitDoubleColon rest).map (fun p => (c :: p.1, p.2))

/-- Parse a (possibly empty) run of colon-separated hextets. -/
def groupsOf (cs : List Char) : Option (List Nat) :=
  if cs = [] then some [] else
  (splitOnCharList ':' cs).foldr (fun t acc => acc.bind fun l => (parseHexGroupCs t).map (· :: l))
    (some [])

/-- Fold hextets into a 128-bit value. -/
def combineGroups (g : List Nat) : Nat := g.foldl (fun acc x => acc * 65536 + x) 0

/-- `IPv6Address` parsing: at most one `::` compression, eight hextets in
total.  Zone ids (`%`) and embedded IPv4 tails (`.`) are outside the model. -/
def parseIPv6 (s : String) : Option Nat :=
  let cs := s.toList
  if cs.contains '%' ∨ cs.contains '.' then none else
  match splitDoubleColon cs with
  | some (l, r) =>
    if (splitDoubleColon r).isSome then none else
    match groupsOf l, groupsOf r with
    | some lg, some rg =>
      if lg.length + rg.length ≤ 7 then
        some (combineGroups (lg ++ List.replicate (8 - lg.length - rg.length) 0 ++ rg))
      else none
    | _, _ => none
  | none =>
    match groupsOf cs with
    | some g => if g.length = 8 then some (combineGroups g) else none
    | none => none

/-- Model of `ipaddress.ip_address`: try IPv4 first, then IPv6, `none` when
neither parses (the `ValueError` branch of `__is_local_address`). -/
def ip_address (s : String) : Option IPAddr :=
  match parseIPv4 s with
  | some n => some (.v4 n)
  | none =>
    match parseIPv6 s with
    | some n => some (.v6 n)
    | none => none

/-- Numeric value of a dotted quad. -/
def mk4 (a b c d : Nat) : Nat := ((a * 256 + b) * 256 + c) * 256 + d

/-- Numeric value of eight hextets. -/
def mk6 (a b c d e f g h : Nat) : Nat := combineGroups [a, b, c, d, e, f, g, h]

/-- Membership of an IPv4 address in a CIDR network. -/
def inNet4 (n base bits : Nat) : Bool := n / 2 ^ (32 - bits) = base / 2 ^ (32 - bits)

/-- Membership of an IPv6 address in a CIDR network. -/
def inNet6 (n base bits : Nat) : Bool := n / 2 ^ (128 - bits) = base / 2 ^ (128 - bits)

/-- CPython `is_loopback`: `127.0.0.0/8` and `::1`. -/
def IPAddr.is_loopback : IPAddr → Bool
  | .v4 n => inNet4 n (mk4 127 0 0 0) 8
  | .v6 n => n = 1

/-- CPython `is_link_local`: `169.254.0.0/16` and `fe80::/10`. -/
def IPAddr.is_link_local : IPAddr → Bool
  | .v4 n => inNet4 n (mk4 169 254 0 0) 16
  | .v6 n => inNet6 n (mk6 0xfe80 0 0 0 0 0 0 0) 10

/-- CPython `is_private`: union of the registered private networks. -/
def IPAddr.is_private : IPAddr → Bool
  | .v4 n =>
    [ (mk4 0 0 0 0, 8), (mk4 10 0 0 0, 8), (mk4 127 0 0 0, 8), (mk4 169 254 0 0, 16),
      (mk4 172 16 0 0, 12), (mk4 192 0 0 0, 29), (mk4 192 0 0 170, 31), (mk4 192 0 2 0, 24),
      (mk4 192 168 0 0, 16), (mk4 198 18 0 0, 15), (mk4 198 51 100 0, 24), (mk4 203 0 113 0, 24),
      (mk4 240 0 0 0, 4), (mk4 255 255 255 255, 32) ].any (fun p => inNet4 n p.1 p.2)
  | .v6 n =>
    [ (1, 128), (0, 128), (mk6 0 0 0 0 0 0xffff 0 0, 96), (mk6 0x100 0 0 0 0 0 0 0, 64),
      (mk6 0x2001 0 0 0 0 0 0 0, 23), (mk6 0x2001 2 0 0 0 0 0 0, 48),
      (mk6 0x2001 0xdb8 0 0 0 0 0 0, 32), (mk6 0x2001 0x10 0 0 0 0 0 0, 28),
      (mk6 0xfc00 0 0 0 0 0 0 0, 7), (mk6 0xfe80 0 0 0 0 0 0 0, 10) ].any
      (fun p => inNet6 n p.1 p.2)

/-- CPython `is_reserved`: `240.0.0.0/4` and the reserved IPv6 blocks. -/
def IPAddr.is_reserved : IPAddr → Bool
  | .v4 n => inNet4 n (mk4 240 0 0 0) 4
  | .v6 n =>
    [ (0, 8), (mk6 0x100 0 0 0 0 0 0 0, 8), (mk6 0x200 0 0 0 0 0 0 0, 7),
      (mk6 0x400 0 0 0 0 0 0 0, 6), (mk6 0x800 0 0 0 0 0 0 0, 5),
      (mk6 0x1000 0 0 0 0 0 0 0, 4), (mk6 0x4000 0 0 0 0 0 0 0, 3),
      (mk6 0x6000 0 0 0 0 0 0 0, 3), (mk6 0x8000 0 0 0 0 0 0 0, 3),
      (mk6 0xA000 0 0 0 0 0 0 0, 3), (mk6 0xC000 0 0 0 0 0 0 0, 3),
      (mk6 0xE000 0 0 0 0 0 0 0, 4), (mk6 0xF000 0 0 0 0 0 0 0, 5),
      (mk6 0xF800 0 0 0 0 0 0 0, 6), (mk6 0xFE00 0 0 0 0 0 0 0, 9) ].any
      (fun p => inNet6 n p.1 p.2)

/-- `Website.__is_local_address` (`website.py` lines 81–95): literal match
against `localhost`/`127.0.0.1`/`::1`, then IP-literal classification; a
`ValueError` from `ip_address` yields `False`. -/
def is_local_address (hostname : String) : Bool :=
  if hostname = "localhost" ∨ hostname = "127.0.0.1" ∨ hostname = "::1" then true
  else
    match ip_address hostname with
    | some ip => ip.is_loopback || ip.is_private || ip.is_link_local || ip.is_reserved
    | none => false

/-- `Website.__is_allowed_domain` (`website.py` lines 97–102):
`hostname.endswith(d)` for `d` in `[".com", ".org", ".net"]`. -/
def is_allowed_domain (hostname : String) : Bool :=
  [".com", ".org", ".net"].any (fun d =>
    hostname.toList.reverse.take d.toList.length == d.toList.reverse)

mutual

/-- All text-node strings of an HTML subtree in document order; BeautifulSoup
`get_text(separator)` joins exactly these. -/
def htmlStrings : Html → List String
  | .textNode s => [s]
  | .elem _ cs => htmlStringsList cs

/-- `htmlStrings` over a child list. -/
def htmlStringsList : List Html → List String
  | [] => []
  | h :: t => htmlStrings h ++ htmlStringsList t

end

mutual

/-- Removing every element whose tag is in `tags`, together with its whole
subtree: the effect of `for t in soup.find_all(tags): t.decompose()`. -/
def removeTags (tags : List String) : Html → Option Html
  | .textNode s => some (.textNode s)
  | .elem t cs => if t ∈ tags then none else some (.elem t (removeTagsList tags cs))

/-- `removeTags` over a child list. -/
def removeTagsList (tags : List String) : List Html → List Html
  | [] => []
  | h :: rest =>
    match removeTags tags h with
    | none => removeTagsList tags rest
    | some h2 => h2 :: removeTagsList tags rest

end

mutual

/-- First element with the given tag in pre-order: `soup.title`, `soup.body`. -/
def findTag (tag : String) : Html → Option Html
  | .textNode _ => none
  | .elem t cs => if t = tag then some (.elem t cs) else findTagList tag cs

/-- `findTag` over a child list. -/
def findTagList (tag : String) : List Html → Option Html
  | [] => none
  | h :: rest =>
    match findTag tag h with
    | some r => some r
    | none => findTagList tag rest

end

/-- `get_text(separator)` of one element: its strings joined by the
separator. -/
def getText (sep : String) (h : Html) : String := String.intercalate sep (htmlStrings h)

/-- `get_text(separator)` of the whole soup. -/
def getTextDoc (sep : String) (doc : List Html) : String :=
  String.intercalate sep (htmlStringsList doc)

/-- The tag list decomposed by `Website.__extract_text` (`website.py`
line 127). -/
def websiteStripTags : List String :=
  ["script", "style", "img", "figure", "video", "audio", "button"]

/-- The tag list decomposed by `Extractor.get_text` (`website.py` line 34):
the same list plus `svg` and `canvas`. -/
def extractorStripTags : List String :=
  ["script", "style", "img", "figure", "video", "audio", "button", "svg", "canvas"]

/-- `Website.__extract_text` (`website.py` lines 123–131): decompose the
non-visual tags, return `"No content"` when no body remains, else
`soup.get_text(separator="\n")` — with no whitespace normalization. -/
def website_extract_text (soup : List Html) : String :=
  let cleaned := removeTagsList websiteStripTags soup
  if (findTagList "body" cleaned).isNone then "No content" else getTextDoc "\n" cleaned

/-- Python `" ".join(raw_text.split())`: collapse whitespace runs to single
spaces, dropping leading and trailing whitespace. -/
def whitespace_normalize (s : String) : String :=
  let tokens := (s.toList.foldr (fun c acc =>
    if c.isWhitespace then [] :: acc
    else
      match acc with
      | cur :: rest => (c :: cur) :: rest
      | [] => [[c]]) [[]]).filter (fun t => t ≠ [])
  String.intercalate " " (tokens.map (fun t => String.mk t))

/-- `Extractor.get_text` (`website.py` lines 33–38, a class no other code in
the repository calls): decompose (also `svg`/`canvas`), join with newlines,
whitespace-normalize, and fall back to `"No content"` when the normalized
text is empty. -/
def extractor_get_text (soup : List Html) : String :=
  let cleaned := removeTagsList extractorStripTags soup
  let raw := getTextDoc "\n" cleaned
  let joined := whitespace_normalize raw
  if joined = "" then "No content" else joined

/-- `Website.__fetch_website_data` (`website.py` lines 104–121): a transport
exception yields `title="Error"`, `text=str(e)`; a success (`response.ok`,
i.e. status < 400) extracts title and text; any other status yields
`title="Error"` and a diagnostic mentioning status and reason.  No
`fetch_failed` flag is assigned in any branch. -/
def fetch_website_data (oracle : String → FetchOutcome) (url : String) : WebsiteObj :=
  match oracle url with
  | .exception msg => { website_url := url, title := "Error", text := msg }
  | .response status reason soup =>
    if status < 400 then
      { website_url := url,
        title :=
          match findTagList "title" soup with
          | some t => getText "" t
          | none => "No title",
        text :=
          if (findTagList "body" soup).isNone then "No content" else website_extract_text soup }
    else { website_url := url, title := "Error", text := "Error: " ++ toString status ++ " - " ++ reason }

/-- The `website_url` setter (`website.py` lines 61–79), which is the whole
of `Website.__init__`: the four validation gates in source order, then the
assignment and `__fetch_website_data`.  The effect trace records the network
call; every rejection happens with an empty trace. -/
def website_url_setter (oracle : String → FetchOutcome) (value : String) :
    Except PyErr WebsiteObj × List Effect :=
  if value = "" then (Except.error (PyErr.valueError "Website URL must be provided"), [])
  else if (urlparse value).netloc = "" ∨
      ((urlparse value).scheme ≠ "http" ∧ (urlparse value).scheme ≠ "https") then
    (Except.error (PyErr.valueError "Website URL must be a valid URL"), [])
  else
    match hostnameOf (urlparse value).netloc with
    | none => (Except.error (PyErr.valueError "Website URL must contain a valid hostname"), [])
    | some host =>
      if is_local_address host then
        (Except.error (PyErr.valueError "Website URL must not be a local address"), [])
      else if is_allowed_domain host = false then
        (Except.error (PyErr.valueError "Website URL must be an allowed domain"), [])
      else (Except.ok (fetch_website_data oracle value), [Effect.fetchPage value])

/-- `fetch` rejecting before any network I/O: the constructor returns a
`ValueError` and an empty effect trace, whatever the network would have
answered. -/
def rejectedBeforeFetch (value : String) : Prop :=
  ∃ msg, ∀ oracle, website_url_setter oracle value =
    (Except.error (PyErr.valueError msg), [])

/-- The raw reply object of `openai` `responses.create`, of which the code
reads only `output_text`. -/
structure ResponseObj where
  output_text : String
deriving DecidableEq

/-- The `content` value of a chat-history entry.  `HistoryManager` annotates
it as `str`, but Python does not enforce the annotation and both `ask`
implementations store the whole response object. -/
inductive Content where
  | str (s : String)
  | responseObj (r : ResponseObj)
deriving DecidableEq

/-- Whether a content value is an actual string. -/
def Content.isString : Content → Bool
  | .str _ => true
  | .responseObj _ => false

/-- One chat-history entry `{"role": ..., "content": ...}`. -/
structure Message where
  role : String
  content : Content
deriving DecidableEq

/-- The state of a `HistoryManager` (`ai_core.py` lines 5–45): the private
`__chat_history` list and the read-only `__system_behavior` string (the
class has no setter for it). -/
structure HistoryState where
  chat : List Message
  system_behavior : String
deriving DecidableEq

/-- The `chat_history` property (`ai_core.py` lines 10–22): on every read,
prepend a system message when the list is empty, insert one when the first
element is not `role=system`, otherwise overwrite the first element's
content with the current behavior text; the mutated list is both stored and
returned. -/
def chat_history (st : HistoryState) : HistoryState × List Message :=
  match st.chat with
  | [] =>
    let c := [{ role := "system", content := Content.str st.system_behavior }]
    ({ st with chat := c }, c)
  | m :: rest =>
    if m.role ≠ "system" then
      let c := { role := "system", content := Content.str st.system_behavior } :: m :: rest
      ({ st with chat := c }, c)
    else
      let c := { m with content := Content.str st.system_behavior } :: rest
      ({ st with chat := c }, c)

/-- Whether a stored chat list already starts with a system entry. -/
def headIsSystem : List Message → Bool
  | [] => false
  | m :: _ => m.role = "system"

/-- `HistoryManager.add_user_message`: append `{"role": "user", "content":
message}` to the private list. -/
def add_user_message (st : HistoryState) (message : String) : HistoryState :=
  { st with chat := st.chat ++ [{ role := "user", content := Content.str message }] }

/-- `HistoryManager.add_assistant_message`: append `{"role": "assistant",
"content": message}`; the parameter is annotated `str` but callers pass the
whole response object, so the model takes a `Content`. -/
def add_assistant_message (st : HistoryState) (message : Content) : HistoryState :=
  { st with chat := st.chat ++ [{ role := "assistant", content := message }] }

/-- `BrochureCreator.ask` (`ai-brochure-creator.py` lines 144–163): append
the question as a user turn, read `chat_history` (which normalizes the head
entry), call the provider with the behavior text and the history, append the
raw `Response` object — not its text — as the assistant turn, and return
`output_text`. -/
def brochure_ask (api : String → List Message → ResponseObj) (st : HistoryState)
    (question : String) : (HistoryState × String) × List Effect :=
  let st1 := add_user_message st question
  let pr := chat_history st1
  let resp := api st1.system_behavior pr.2
  let st2 := add_assistant_message pr.1 (Content.responseObj resp)
  ((st2, resp.output_text), [Effect.askModel question])

/-- `{type, url}` pairs parsed out of the classifier's JSON reply. -/
structure LinkDescriptor where
  type : String
  url : String
deriving DecidableEq

/-- `ExtractorOfRelevantLinks.ask` (`extractor_of_relevant_links.py` lines
50–64): same shape as `BrochureCreator.ask` — the assistant turn stores the
raw response object — but the returned value is `json.loads` applied to the
reply text, modelled by the `loads` parameter. -/
def extractor_ask (api : String → List Message → ResponseObj)
    (loads : String → Except PyErr (List LinkDescriptor)) (st : HistoryState)
    (question : String) : (HistoryState × Except PyErr (List LinkDescriptor)) × List Effect :=
  let st1 := add_user_message st question
  let pr := chat_history st1
  let resp := api st1.system_behavior pr.2
  let st2 := add_assistant_message pr.1 (Content.responseObj resp)
  ((st2, loads resp.output_text), [Effect.askModel question])

/-- Reading the `fetch_failed` attribute of a `Website` instance:
`website.py` neither declares a `fetch_failed` field or property nor assigns
one anywhere, so the Python attribute lookup performed by
`BrochureCreator._form_brochure_prompt` raises `AttributeError`. -/
def WebsiteObj.getFetchFailed (_ : WebsiteObj) : Except PyErr Bool :=
  Except.error (PyErr.attributeError "fetch_failed")

/-- An entry of the `relevant_pages` list built by
`BrochureCreator._get_relevant_pages`: `{"type": ..., "page": Website(...)}`.
The `page` value is always a `Website`, so the `isinstance` test in
`_form_brochure_prompt` is always true and is absorbed by the typing. -/
structure RelevantPage where
  type : String
  page : WebsiteObj
deriving DecidableEq

/-- The quote delimiter literal of `_form_brochure_prompt` (source spelling). -/
def QUOTE_DELIMETER : String := "\n\"\"\"\n"

/-- `BrochureCreator._form_brochure_prompt` (`ai-brochure-creator.py` lines
77–94): a quoted section for the main page, then one per relevant page whose
`fetch_failed` is false — but evaluating `page['page'].fetch_failed` raises. -/
def form_brochure_prompt (main : WebsiteObj) (relevant_pages : List RelevantPage) :
    Except PyErr String :=
  let qd := QUOTE_DELIMETER
  relevant_pages.foldlM (fun acc p =>
    (p.page.getFetchFailed).map (fun ff =>
      if ff then acc
      else acc ++ p.type ++ ":" ++ qd ++ "Title: " ++ p.page.title ++ "\nText:\n" ++
        p.page.text ++ qd ++ "\n"))
    ("Main page:" ++ qd ++ "Title: " ++ main.title ++ "\nText:\n" ++ main.text ++ qd ++ "\n")

/-- `BrochureCreator._get_relevant_pages` (`ai-brochure-creator.py` lines
61–75) after the classifier reply has been parsed: construct a `Website` for
every classified link in order; a validation error propagates, a performed
fetch is recorded in the trace. -/
def get_relevant_pages (fetchOracle : String → FetchOutcome)
    (relevant_links : List LinkDescriptor) : Except PyErr (List RelevantPage) × List Effect :=
  relevant_links.foldl (fun acc link =>
    match acc with
    | (Except.error e, tr) => (Except.error e, tr)
    | (Except.ok pages, tr) =>
      match website_url_setter fetchOracle link.url with
      | (Except.error e, tr2) => (Except.error e, tr ++ tr2)
      | (Except.ok w, tr2) => (Except.ok (pages ++ [{ type := link.type, page := w }]), tr ++ tr2))
    (Except.ok [], [])

/-- `BrochureCreator._infer_company_name`'s prompt text. -/
def inferring_company_name_prompt (brochure_prompt_part : String) : String :=
  "Infer the name of the company or the full name of the owner of this website based on the following information that was obtained from their website:\n"
    ++ brochure_prompt_part ++ "\nRespond only with the name."

/-- `BrochureCreator._infer_status`'s prompt text. -/
def inferring_status_prompt (inferred_name : String) : String :=
  "Infer the current status of the entity by the provided name based on the information obtained from their website previously. There can be only two statuses: a company or an individual.\nEntity: "
    ++ inferred_name ++ "\nRespond only with the status of said entity."

/-- `BrochureCreator._form_full_prompt` (`ai-brochure-creator.py` lines
128–142). -/
def form_full_prompt (url inferred_company_name inferred_status : String) : String :=
  "You are looking at a " ++ inferred_status ++ " called " ++ inferred_company_name ++
    ", to whom website " ++ url ++ " belongs.\nBuild a short brochure about the " ++
    inferred_status ++
    ". Use the information from the website that is already stored in the history.\nYour response must be in a Markdown format."

/-- `BrochureCreator.create_brochure` (`ai-brochure-creator.py` lines 42–59),
given the already-parsed classifier links: resolve them into pages, return
the literal fallback when none were classified, otherwise assemble the
evidence prompt and run the three inference calls in order. -/
def create_brochure (fetchOracle : String → FetchOutcome)
    (api : String → List Message → ResponseObj) (main : WebsiteObj)
    (classified_links : List LinkDescriptor) (st0 : HistoryState) :
    Except PyErr (String × HistoryState) × List Effect :=
  match get_relevant_pages fetchOracle classified_links with
  | (Except.error e, tr) => (Except.error e, tr)
  | (Except.ok relevant_pages, tr) =>
    if relevant_pages.isEmpty then
      (Except.ok ("No relevant pages found to create a brochure.", st0), tr)
    else
      match form_brochure_prompt main relevant_pages with
      | Except.error e => (Except.error e, tr)
      | Except.ok part =>
        let r1 := brochure_ask api st0 (inferring_company_name_prompt part)
        let r2 := brochure_ask api r1.1.1 (inferring_status_prompt r1.1.2)
        let r3 := brochure_ask api r2.1.1 (form_full_prompt main.website_url r1.1.2 r2.1.2)
        (Except.ok (r3.1.2, r3.1.1), tr ++ r1.2 ++ r2.2 ++ r3.2)

/-- The public interface of a constructed `Website`: the three property
getters, `__str__`, and assignment to the public `website_url` property. -/
inductive WebsiteOp where
  | getTitle
  | getText
  | getUrl
  | setUrl (value : String)
  | toStr
deriving DecidableEq

/-- Whether an operation is an assignment to `website_url`. -/
def WebsiteOp.isSetUrl : WebsiteOp → Bool
  | .setUrl _ => true
  | _ => false

/-- One public operation on a `Website` instance: getters and `__str__` read
fields; assigning `website_url` re-runs validation and the fetch, replacing
all three fields on success and raising (object unchanged) on rejection. -/
def website_step (oracle : String → FetchOutcome) (w : WebsiteObj) :
    WebsiteOp → WebsiteObj × Except PyErr (Option String)
  | .getTitle => (w, Except.ok (some w.title))
  | .getText => (w, Except.ok (some w.text))
  | .getUrl => (w, Except.ok (some w.website_url))
  | .toStr => (w, Except.ok (some ("Website(title=" ++ w.title ++ ", url=" ++ w.website_url ++ ")")))
  | .setUrl value =>
    match website_url_setter oracle value with
    | (Except.error e, _) => (w, Except.error e)
    | (Except.ok w2, _) => (w2, Except.ok none)

/-- The configuration object of the repository's `ai_brochure_config` module
(not under `src/`); per the spec's §6 it supplies an API key and a model
name.  Which concrete values the default constructor loads is irrelevant to
the claims, so defaults are passed as a parameter where needed. -/
structure AIBrochureConfig where
  openai_api_key : Option String
  model_name : String
deriving DecidableEq

/-- The `openai.OpenAI(api_key=...)` client handle, modelled as a total
constructor holding the key; provider-side failures are outside `ai_core.py`. -/
structure OpenAIClient where
  api_key : Option String
deriving DecidableEq

/-- The state of an `AICore` instance (`ai_core.py` lines 48–149): the
private `__config`, the lazily constructed `__ai_api`, and the history
manager. -/
structure AICoreState where
  config : Option AIBrochureConfig
  ai_api : Option OpenAIClient
  history : HistoryState
deriving DecidableEq

/-- The `config` setter (`ai_core.py` lines 69–92): `None` is replaced by a
freshly constructed default `AIBrochureConfig` (the fresh default is the
`dflt` argument). -/
def config_setter (dflt : AIBrochureConfig) (st : AICoreState)
    (config : Option AIBrochureConfig) : AICoreState :=
  match config with
  | none => { st with config := some dflt }
  | some cfg => { st with config := some cfg }

/-- `AICore.__init__` (`ai_core.py` lines 138–149): `__config = None`, then
the `config` setter, then a fresh `HistoryManager`, then `__ai_api = None`.
The `config` parameter is an `Option` because Python would not stop a caller
from passing `None`. -/
def aicore_init (dflt : AIBrochureConfig) (config : Option AIBrochureConfig)
    (system_behavior : String) : AICoreState :=
  config_setter dflt
    { config := none, ai_api := none, history := { chat := [], system_behavior := system_behavior } }
    config

/-- The `_ai_api` property (`ai_core.py` lines 94–122): return the cached
client, or construct and cache one, raising when `config` is `None`. -/
def ai_api_get (st : AICoreState) : Except PyErr (AICoreState × OpenAIClient) :=
  match st.ai_api with
  | some client => Except.ok (st, client)
  | none =>
    match st.config with
    | none => Except.error (PyErr.valueError "Configuration must be set before accessing AI API")
    | some cfg =>
      let client : OpenAIClient := { api_key := cfg.openai_api_key }
      Except.ok ({ st with ai_api := some client }, client)

/-- A concrete parsed page: title `T`, body with two text chunks. -/
def soupC6 : List Html :=
  [Html.elem "html"
    [Html.elem "head" [Html.elem "title" [Html.textNode "T"]],
     Html.elem "body" [Html.textNode "Hello", Html.textNode "World"]]]

/-- A network oracle answering every GET with status 200 and `soupC6`. -/
def oracleOk : String → FetchOutcome := fun _ => FetchOutcome.response 200 "OK" soupC6

/-- A network oracle whose every GET raises a transport exception. -/
def oracleRefused : String → FetchOutcome := fun _ => FetchOutcome.exception "connection refused"

/-- A concrete already-constructed `Website`. -/
def wStart : WebsiteObj := { website_url := "https://example.com/", title := "Main", text := "Main text" }

/-- A provider oracle answering every inference call with the text `reply`. -/
def apiReply : String → List Message → ResponseObj := fun _ _ => { output_text := "reply" }

/-- A fresh history with behavior text `sys`. -/
def historyFresh : HistoryState := { chat := [], system_behavior := "sys" }

/-- C1: the claim says a failed fetch yields a Page with `fetchFailed=true`
and such pages are silently omitted from the evidence prompt.  The code does
produce the diagnostic `title="Error"`/`text=str(e)` Page, but `website.py`
never defines or assigns `fetch_failed`, so `_form_brochure_prompt` raises
`AttributeError` on the very first relevant page instead of filtering. -/
theorem brochure_prompt_attribute_error :
    fetch_website_data oracleRefused "https://example.com/about" =
      { website_url := "https://example.com/about", title := "Error",
        text := "connection refused" } ∧
    form_brochure_prompt wStart
        [{ type := "about page",
           page := { website_url := "https://example.com/about", title := "Error",
                     text := "connection refused" } }] =
      Except.error (PyErr.attributeError "fetch_failed") :=
  ⟨rfl, rfl⟩

/-- C2: every URL whose hostname is `localhost`, `127.0.0.1` or `::1`, or is
an IP literal classified loopback, private or link-local, is rejected by the
`website_url` setter with a `ValueError` and an empty network trace. -/
theorem local_address_rejected_before_fetch (value host : String)
    (hhost : hostnameOf (urlparse value).netloc = some host)
    (hlocal : host = "localhost" ∨ host = "127.0.0.1" ∨ host = "::1" ∨
      ∃ ip, ip_address host = some ip ∧
        (ip.is_loopback = true ∨ ip.is_private = true ∨ ip.is_link_local = true)) :
    rejectedBeforeFetch value := by
  have hloc : is_local_address host = true := by
    unfold is_local_address
    by_cases hlit : host = "localhost" ∨ host = "127.0.0.1" ∨ host = "::1"
    · simp [hlit]
    · rcases hlocal with h | h | h | ⟨ip, hip, hcls⟩
      · exact absurd (Or.inl h) hlit
      · exact absurd (Or.inr (Or.inl h)) hlit
      · exact absurd (Or.inr (Or.inr h)) hlit
      · rw [if_neg hlit, hip]
        rcases hcls with h | h | h <;> simp [h]
  by_cases hv : value = ""
  · exfalso
    rw [hv] at hhost
    rw [show hostnameOf (urlparse "").netloc = none from rfl] at hhost
    exact Option.noConfusion hhost
  · by_cases h2 : (urlparse value).netloc = "" ∨
        ((urlparse value).scheme ≠ "http" ∧ (urlparse value).scheme ≠ "https")
    · exact ⟨"Website URL must be a valid URL", fun oracle => by
        simp [website_url_setter, hv, h2]⟩
    · exact ⟨"Website URL must not be a local address", fun oracle => by
        simp [website_url_setter, hv, h2, hhost, hloc]⟩

/-- C2 witness: `http://10.0.0.1/` parses to the private IPv4 literal
`10.0.0.1` and is rejected before any network I/O. -/
theorem local_address_rejected_before_fetch_witness :
    hostnameOf (urlparse "http://10.0.0.1/").netloc = some "10.0.0.1" ∧
    ip_address "10.0.0.1" = some (IPAddr.v4 167772161) ∧
    (IPAddr.v4 167772161).is_private = true ∧
    rejectedBeforeFetch "http://10.0.0.1/" :=
  ⟨by decide, by decide, by decide,
    local_address_rejected_before_fetch "http://10.0.0.1/" "10.0.0.1" (by decide)
      (Or.inr (Or.inr (Or.inr
        ⟨IPAddr.v4 167772161, by decide, Or.inr (Or.inl (by decide))⟩)))⟩

/-- C3: every URL that is empty, has a scheme outside `{http, https}`, has
no hostname, or has a hostname that does not end in `.com`/`.org`/`.net`,
is rejected by the `website_url` setter with a `ValueError` and an empty
network trace. -/
theorem invalid_url_rejected_before_fetch (value : String)
    (hbad : value = "" ∨
      ((urlparse value).scheme ≠ "http" ∧ (urlparse value).scheme ≠ "https") ∨
      hostnameOf (urlparse value).netloc = none ∨
      ∃ host, hostnameOf (urlparse value).netloc = some host ∧
        is_allowed_domain host = false) :
    rejectedBeforeFetch value := by
  by_cases hv : value = ""
  · exact ⟨"Website URL must be provided", fun oracle => by simp [website_url_setter, hv]⟩
  · by_cases h2 : (urlparse value).netloc = "" ∨
        ((urlparse value).scheme ≠ "http" ∧ (urlparse value).scheme ≠ "https")
    · exact ⟨"Website URL must be a valid URL", fun oracle => by
        simp [website_url_setter, hv, h2]⟩
    · cases hh : hostnameOf (urlparse value).netloc with
      | none =>
        exact ⟨"Website URL must contain a valid hostname", fun oracle => by
          simp [website_url_setter, hv, h2, hh]⟩
      | some host =>
        by_cases hloc : is_local_address host = true
        · exact ⟨"Website URL must not be a local address", fun oracle => by
            simp [website_url_setter, hv, h2, hh, hloc]⟩
        · by_cases hall : is_allowed_domain host = false
          · exact ⟨"Website URL must be an allowed domain", fun oracle => by
              simp [website_url_setter, hv, h2, hh, hloc, hall]⟩
          · exfalso
            rcases hbad with h | h | h | ⟨host2, hh2, hall2⟩
            · exact hv h
            · exact h2 (Or.inr h)
            · rw [hh] at h
              exact Option.noConfusion h
            · rw [hh] at hh2
              injection hh2 with he
              rw [← he] at hall2
              exact hall hall2

/-- C3 witness: `https://intranet.local/` has a hostname outside the TLD
allowlist and is rejected before any network I/O. -/
theorem invalid_url_rejected_before_fetch_witness :
    hostnameOf (urlparse "https://intranet.local/").netloc = some "intranet.local" ∧
    is_allowed_domain "intranet.local" = false ∧
    rejectedBeforeFetch "https://intranet.local/" :=
  ⟨by decide, by decide,
    invalid_url_rejected_before_fetch "https://intranet.local/"
      (Or.inr (Or.inr (Or.inr ⟨"intranet.local", by decide, by decide⟩)))⟩

/-- C4: every read of `chat_history` returns a sequence headed by a system
message carrying the current behavior text, the stored list is the returned
list, and the remaining elements are the prior turns — the whole stored list
when its head was not a system entry, its tail otherwise. -/
theorem chat_history_head_is_system (st : HistoryState) :
    (chat_history st).2.head? =
      some { role := "system", content := Content.str st.system_behavior } ∧
    (chat_history st).1.chat = (chat_history st).2 ∧
    (chat_history st).2.drop 1 =
      (if headIsSystem st.chat then st.chat.drop 1 else st.chat) := by
  cases hc : st.chat with
  | nil => simp [chat_history, headIsSystem, hc]
  | cons m rest =>
    by_cases hr : m.role = "system"
    · simp [chat_history, headIsSystem, hc, hr]
    · simp [chat_history, headIsSystem, hc, hr]

/-- C5: when the classifier returned no links, `create_brochure` returns
exactly the literal fallback string, with an unchanged history and an empty
effect trace — no page fetches and no further inference calls. -/
theorem empty_links_fallback_no_calls (fetchOracle : String → FetchOutcome)
    (api : String → List Message → ResponseObj) (main : WebsiteObj) (st0 : HistoryState) :
    create_brochure fetchOracle api main [] st0 =
      (Except.ok ("No relevant pages found to create a brochure.", st0), []) :=
  rfl

/-- C6 counterexample: a successful fetch of a page whose body holds two text
chunks yields `"T\nHello\nWorld"` — the newline-joined strings (title text
included), which differs from its whitespace-normalization, so the text of a
successfully fetched page is not whitespace-normalized. -/
theorem fetched_text_not_normalized :
    oracleOk "https://example.com/" = FetchOutcome.response 200 "OK" soupC6 ∧
    (fetch_website_data oracleOk "https://example.com/").text = "T\nHello\nWorld" ∧
    whitespace_normalize "T\nHello\nWorld" ≠ "T\nHello\nWorld" :=
  ⟨rfl, by decide, by decide⟩

/-- C6 amended: for a successfully fetched page whose body survives the tag
stripping, the text is the stripped soup's strings joined with `"\n"`, with
no whitespace normalization and no empty-string fallback; the normalization
(with the `"No content"` fallback for an empty result) is computed by the
unused `Extractor.get_text`, which on soups where additionally stripping
`svg`/`canvas` changes nothing returns exactly the normalization of that
same newline-joined text. -/
theorem fetched_text_newline_joined (oracle : String → FetchOutcome) (url : String)
    (status : Nat) (reason : String) (soup : List Html)
    (hresp : oracle url = FetchOutcome.response status reason soup)
    (hok : status < 400)
    (hbody : (findTagList "body" soup).isSome = true)
    (hbody2 : (findTagList "body" (removeTagsList websiteStripTags soup)).isSome = true)
    (hsvg : removeTagsList extractorStripTags soup = removeTagsList websiteStripTags soup) :
    (fetch_website_data oracle url).text =
      getTextDoc "\n" (removeTagsList websiteStripTags soup) ∧
    extractor_get_text soup =
      (if whitespace_normalize (getTextDoc "\n" (removeTagsList websiteStripTags soup)) = ""
       then "No content"
       else whitespace_normalize (getTextDoc "\n" (removeTagsList websiteStripTags soup))) := by
  obtain ⟨b, hb⟩ := Option.isSome_iff_exists.mp hbody
  obtain ⟨b2, hb2⟩ := Option.isSome_iff_exists.mp hbody2
  constructor
  · simp [fetch_website_data, hresp, hok, hb, website_extract_text, hb2]
  · simp [extractor_get_text, hsvg]

/-- C6 amended, witness: the concrete page `soupC6` satisfies every
hypothesis and the conclusion at `oracleOk`. -/
theorem fetched_text_newline_joined_witness :
    oracleOk "https://example.com/" = FetchOutcome.response 200 "OK" soupC6 ∧
    200 < 400 ∧
    (findTagList "body" soupC6).isSome = true ∧
    (findTagList "body" (removeTagsList websiteStripTags soupC6)).isSome = true ∧
    removeTagsList extractorStripTags soupC6 = removeTagsList websiteStripTags soupC6 ∧
    ((fetch_website_data oracleOk "https://example.com/").text =
        getTextDoc "\n" (removeTagsList websiteStripTags soupC6) ∧
      extractor_get_text soupC6 =
        (if whitespace_normalize (getTextDoc "\n" (removeTagsList websiteStripTags soupC6)) = ""
         then "No content"
         else whitespace_normalize (getTextDoc "\n" (removeTagsList websiteStripTags soupC6)))) :=
  ⟨rfl, by decide, by decide, by decide, rfl,
    fetched_text_newline_joined oracleOk "https://example.com/" 200 "OK" soupC6 rfl
      (by decide) (by decide) (by decide) rfl⟩

/-- C7: both `ask` implementations append the raw response object — not a
string — as the assistant turn's content, contradicting the claim (and the
`str` annotation of `add_assistant_message`). -/
theorem assistant_turn_stores_response_object :
    ((brochure_ask apiReply historyFresh "q").1.1).chat.getLast? =
      some { role := "assistant", content := Content.responseObj { output_text := "reply" } } ∧
    (Content.responseObj { output_text := "reply" }).isString = false ∧
    ((extractor_ask apiReply (fun _ => Except.ok []) historyFresh "q").1.1).chat.getLast? =
      some { role := "assistant", content := Content.responseObj { output_text := "reply" } } :=
  ⟨by decide, by decide, by decide⟩

/-- C8: reading `chat_history` twice with no intervening append yields the
same stored state and the same returned sequence, whose head carries the
behavior text current at read-time (the behavior text has no setter, so it
cannot change between the reads). -/
theorem chat_history_read_idempotent (st : HistoryState) :
    chat_history (chat_history st).1 = chat_history st ∧
    (chat_history st).2.head? =
      some { role := "system", content := Content.str st.system_behavior } := by
  cases hc : st.chat with
  | nil => simp [chat_history, hc]
  | cons m rest =>
    by_cases hr : m.role = "system"
    · simp [chat_history, hc, hr]
    · simp [chat_history, hc, hr]

/-- C9 counterexample: assigning to the public `website_url` property of an
already-constructed `Website` replaces its url, title and text, so a Website
is not immutable under its public interface. -/
theorem website_mutable_via_seturl :
    (website_step oracleRefused wStart (WebsiteOp.setUrl "https://other.org/x")).1 =
      { website_url := "https://other.org/x", title := "Error", text := "connection refused" } ∧
    (website_step oracleRefused wStart (WebsiteOp.setUrl "https://other.org/x")).1 ≠ wStart :=
  ⟨by decide, by decide⟩

/-- C9 amended: once constructed, no public operation other than an
assignment to `website_url` changes a Website's url, title or text. -/
theorem website_frame_non_seturl (oracle : String → FetchOutcome) (w : WebsiteObj)
    (op : WebsiteOp) (hop : op.isSetUrl = false) :
    (website_step oracle w op).1 = w := by
  cases op with
  | getTitle => rfl
  | getText => rfl
  | getUrl => rfl
  | toStr => rfl
  | setUrl v => exact absurd hop (by simp [WebsiteOp.isSetUrl])

/-- C9 amended, witness: reading the title leaves a concrete Website
unchanged. -/
theorem website_frame_non_seturl_witness :
    WebsiteOp.isSetUrl WebsiteOp.getTitle = false ∧
    (website_step oracleRefused wStart WebsiteOp.getTitle).1 = wStart :=
  ⟨rfl, website_frame_non_seturl oracleRefused wStart WebsiteOp.getTitle rfl⟩

/-- C10: after `AICore.__init__` the stored configuration is always `some`
(the setter substitutes the fresh default when handed `None`), so the first
`_ai_api` access never takes the configuration-missing error branch: it
constructs the client, caches it, and a second access returns the same
cached client unchanged. -/
theorem config_never_none_client_cached (dflt : AIBrochureConfig)
    (config : Option AIBrochureConfig) (system_behavior : String) :
    (aicore_init dflt config system_behavior).config.isSome = true ∧
    (∃ st2 client,
      ai_api_get (aicore_init dflt config system_behavior) = Except.ok (st2, client) ∧
      st2.ai_api = some client ∧
      ai_api_get st2 = Except.ok (st2, client)) := by
  cases config with
  | none => exact ⟨rfl, ⟨_, _, rfl, rfl, rfl⟩⟩
  | some cfg => exact ⟨rfl, ⟨_, _, rfl, rfl, rfl⟩⟩
